import Mathlib

/-!
Verification development for the dropply chest-sharing service.

This file shallow-embeds the parts of the source exercised by the frozen
claims:

* the token service (`createUploadJWT` / `verifyUploadJWT` / `verifyChestJWT`
  / `verifyMultipartJWT`, from `src/unnamed/part_007` and
  `src/droply-backend/src/utils.ts`),
* the utility validators (`isValidRetrievalCode`, `isValidUUID`,
  `calculateExpiry`, `getFileExtension`),
* the chest lifecycle handlers of the Hono/drizzle variant
  (`src/apps/api/src/routes/chest.ts`, `src/unnamed/part_012`,
  `src/unnamed/part_009`): upload, seal (complete), multipart complete,
  retrieve,
* the droply-backend worker retrieve handler (`src/unnamed/part_004`),
* the reaper (`src/apps/api/src/cron/cleanup.ts`).

Modelling conventions, stated once here and referenced in the doc comments:

* Timestamps are `Int` (Unix epoch), in the unit used at each call site
  (milliseconds for the drizzle variant which compares `Date` values,
  seconds for the droply-backend worker and for token `iat`/`exp`, where
  the source divides `Date.now()` by 1000; token times use `Nat` since
  `Date.now()` is non-negative).
* HMAC-SHA-256 is modelled as an ideal MAC: a tag is the pair
  (signing secret, signed claims), and verification is equality of tags.
  This matches the source pipeline (sign over the serialized claims,
  constant-time tag comparison) under the standard idealization that the
  MAC is unforgeable and the claim serialization is injective.
* Blob-store keys are written by the source as the interpolation
  `sessionId + "/" + fileId` of two UUIDs; since UUIDs contain no slash
  the key is modelled as the pair of the two components, and the reaper's
  prefix listing becomes a filter on the first component.
* Database rows live in Lean lists; a drizzle `update ... where p` maps
  each row through a conditional update, `select ... where p` filters,
  `.get()` takes the first match.
-/

/-! ## Token service (src/unnamed/part_007, src/droply-backend/src/utils.ts) -/

/-- Claims carried in a signed token. Optional fields are absent for the
upload and chest token types and present for the multipart type, mirroring
the payload shapes in the source (`UploadJWTPayload`, `ChestJWTPayload`,
`MultipartJWTPayload`). `iat`/`exp` are Unix seconds (`Nat`, since the
source derives them from `Date.now()/1000`). -/
structure JwtClaims where
  sessionId : String
  fileId : Option String
  uploadId : Option String
  filename : Option String
  mimeType : Option String
  fileSize : Option Int
  type : String
  iat : Nat
  exp : Nat
deriving DecidableEq, Repr

/-- A signed compact token: the claims plus the HMAC tag, with the MAC
modelled ideally as the pair (secret, signed claims). -/
structure Jwt where
  payload : JwtClaims
  sig : String × JwtClaims
deriving DecidableEq, Repr

/-- Verification errors of the token service (`verifyJWT` throws on a bad
signature or an expired token; the typed wrappers throw on a wrong
`type`). -/
inductive JwtError where
  | invalidSignature
  | expired
  | wrongTokenType
deriving DecidableEq, Repr

/-- Embeds `signJWT` (part_007 lines 68-94): attach the MAC tag over the
claims under the given secret. -/
def signJWT (payload : JwtClaims) (secret : String) : Jwt :=
  { payload := payload, sig := (secret, payload) }

/-- Embeds `verifyJWT` (part_007 lines 97-141): check the signature, then
reject if `payload.exp` is truthy (non-zero) and `now` is strictly past it,
then return the claims. -/
def verifyJWT (token : Jwt) (secret : String) (now : Nat) :
    Except JwtError JwtClaims :=
  if token.sig ≠ (secret, token.payload) then
    .error .invalidSignature
  else if token.payload.exp ≠ 0 ∧ now > token.payload.exp then
    .error .expired
  else
    .ok token.payload

/-- Embeds `createUploadJWT` (part_007 lines 143-155): upload claims with
`exp = iat + 24 h`. -/
def createUploadJWT (sessionId : String) (secret : String) (now : Nat) : Jwt :=
  signJWT
    { sessionId := sessionId, fileId := none, uploadId := none,
      filename := none, mimeType := none, fileSize := none,
      type := "upload", iat := now, exp := now + 24 * 60 * 60 }
    secret

/-- Embeds `createChestJWT` (part_007 lines 157-174): chest claims whose
`exp` is the session expiry (in seconds) or one year for permanent. -/
def createChestJWT (sessionId : String) (expirySec : Option Nat)
    (secret : String) (now : Nat) : Jwt :=
  signJWT
    { sessionId := sessionId, fileId := none, uploadId := none,
      filename := none, mimeType := none, fileSize := none,
      type := "chest", iat := now,
      exp := expirySec.getD (now + 365 * 24 * 60 * 60) }
    secret

/-- Embeds `createMultipartJWT` (part_007 lines 176-198): multipart claims
with `exp = iat + 48 h`. -/
def createMultipartJWT (sessionId fileId uploadId filename mimeType : String)
    (fileSize : Int) (secret : String) (now : Nat) : Jwt :=
  signJWT
    { sessionId := sessionId, fileId := some fileId,
      uploadId := some uploadId, filename := some filename,
      mimeType := some mimeType, fileSize := some fileSize,
      type := "multipart", iat := now, exp := now + 48 * 60 * 60 }
    secret

/-- Embeds `verifyUploadJWT` (part_007 lines 200-209): verify, then require
`type = "upload"`. -/
def verifyUploadJWT (token : Jwt) (secret : String) (now : Nat) :
    Except JwtError JwtClaims :=
  match verifyJWT token secret now with
  | .error e => .error e
  | .ok p => if p.type ≠ "upload" then .error .wrongTokenType else .ok p

/-- Embeds `verifyChestJWT` (part_007 lines 211-220): verify, then require
`type = "chest"`. -/
def verifyChestJWT (token : Jwt) (secret : String) (now : Nat) :
    Except JwtError JwtClaims :=
  match verifyJWT token secret now with
  | .error e => .error e
  | .ok p => if p.type ≠ "chest" then .error .wrongTokenType else .ok p

/-- Embeds `verifyMultipartJWT` (part_007 lines 222-231): verify, then
require `type = "multipart"`. -/
def verifyMultipartJWT (token : Jwt) (secret : String) (now : Nat) :
    Except JwtError JwtClaims :=
  match verifyJWT token secret now with
  | .error e => .error e
  | .ok p => if p.type ≠ "multipart" then .error .wrongTokenType else .ok p

/-! ## Identifier and code validators (src/unnamed/part_007) -/

/-- Character class of the retrieval-code alphabet: `[A-Z0-9]`. -/
def isCodeChar (c : Char) : Bool :=
  (("A" : String).front ≤ c && c ≤ ("Z" : String).front) ||
  (("0" : String).front ≤ c && c ≤ ("9" : String).front)

/-- Embeds `isValidRetrievalCode` (part_007 lines 24-27): the regex
test of the anchored pattern six characters of `[A-Z0-9]`. -/
def isValidRetrievalCode (code : String) : Bool :=
  code.length == 6 && code.toList.all isCodeChar

/-- Hexadecimal digit, case-insensitive (`[0-9a-f]` with the `i` flag). -/
def isHexChar (c : Char) : Bool :=
  (("0" : String).front ≤ c && c ≤ ("9" : String).front) ||
  (("a" : String).front ≤ c && c ≤ ("f" : String).front) ||
  (("A" : String).front ≤ c && c ≤ ("F" : String).front)

/-- Membership of a character in a string given as a character list,
case-insensitively (used for the UUID version/variant classes). -/
def charInClassCI (c : Char) (cls : List Char) : Bool :=
  cls.any (fun d => d == c || d == c.toLower)

/-- Split a character list at every dash (the grouping the UUID pattern's
literal dashes induce). -/
def splitOnDash : List Char → List (List Char)
  | [] => [[]]
  | c :: rest =>
    match splitOnDash rest with
    | [] => [[]]
    | g :: gs => if c == ("-" : String).front then [] :: g :: gs
                 else (c :: g) :: gs

/-- First character of a group matches the given one (used for the literal
version nibble of the UUID pattern). -/
def headIs (cs : List Char) (c : Char) : Bool :=
  match cs with
  | [] => false
  | d :: _ => d == c

/-- Embeds `isValidUUID` (part_007 lines 17-21): the anchored
case-insensitive UUID-v4 pattern
8 hex, dash, 4 hex, dash, `4` + 3 hex, dash, `[89ab]` + 3 hex, dash,
12 hex. -/
def isValidUUID (uuid : String) : Bool :=
  match splitOnDash uuid.toList with
  | [a, b, c, d, e] =>
    a.length == 8 && a.all isHexChar &&
    b.length == 4 && b.all isHexChar &&
    c.length == 4 && c.all isHexChar && headIs c (("4" : String).front) &&
    d.length == 4 && d.all isHexChar &&
      (match d with
       | [] => false
       | dc :: _ => charInClassCI dc [("8" : String).front,
           ("9" : String).front, ("a" : String).front,
           ("b" : String).front]) &&
    e.length == 12 && e.all isHexChar
  | _ => false

/-- Embeds `calculateExpiry` of the drizzle variant (part_007 lines 30-35):
`-1` is permanent (`null`), otherwise now plus `validityDays` days on the
millisecond timeline (`Date.now() + validityDays * 24 * 60 * 60 * 1000`). -/
def calculateExpiry (nowMs : Int) (validityDays : Int) : Option Int :=
  if validityDays = -1 then none
  else some (nowMs + validityDays * 24 * 60 * 60 * 1000)

/-- Embeds `calculateExpiry` of the droply-backend worker
(`src/droply-backend/src/utils.ts` lines 307-312): `-1` is permanent,
otherwise now plus `validityDays` days on the seconds timeline. -/
def calculateExpirySec (nowSec : Int) (validityDays : Int) : Option Int :=
  if validityDays = -1 then none
  else some (nowSec + validityDays * 24 * 60 * 60)

/-- Index of the last "." in a character list, or `none`. -/
def lastDotIndex (cs : List Char) : Option Nat :=
  ((cs.enum.filter (fun p => p.2 == (".").front)).map Prod.fst).getLast?

/-- Embeds `getFileExtension` (part_007 lines 38-41): the substring after
the last dot when `lastIndexOf(".") > 0`, otherwise `null`. -/
def getFileExtension (filename : String) : Option String :=
  match lastDotIndex filename.toList with
  | some i => if i > 0 then some (String.mk (filename.toList.drop (i + 1))) else none
  | none => none

/-! ## Drizzle data model (src/apps/api, src/unnamed/part_012 and part_009)

The `sessions` and `files` tables of the drizzle schema, with the
soft-delete tombstone. Booleans are stored as the integers 0/1 exactly as
the schema does (`uploadComplete: 0`, `isText: 0`, `isDeleted: 1` in the
source). -/

/-- A row of the `sessions` table. -/
structure Session where
  id : String
  retrievalCode : Option String
  uploadComplete : Nat
  expiresAt : Option Int
  createdAt : Int
  updatedAt : Int
  isDeleted : Nat
deriving DecidableEq, Repr

/-- A row of the `files` table. -/
structure FileRow where
  id : String
  sessionId : String
  originalFilename : String
  mimeType : String
  fileSize : Int
  fileExtension : Option String
  isText : Nat
  createdAt : Int
  updatedAt : Int
  isDeleted : Nat
deriving DecidableEq, Repr

/-- The metadata store: both tables. -/
structure Db where
  sessions : List Session
  files : List FileRow
deriving DecidableEq, Repr

/-- A stored blob object. The source key is the string
`sessionId + "/" + fileId`; it is modelled as the two components (UUIDs
contain no slash, so the interpolation is injective). -/
structure R2Object where
  sessionId : String
  fileId : String
  content : String
deriving DecidableEq, Repr

/-- One uploaded part of an in-flight multipart upload, with the etag the
store returned for it. -/
structure R2Part where
  partNumber : Nat
  etag : String
  content : String
deriving DecidableEq, Repr

/-- An in-flight multipart upload at key `(sessionId, fileId)` with its
opaque `uploadId` and the parts uploaded so far. -/
structure R2Upload where
  sessionId : String
  fileId : String
  uploadId : String
  parts : List R2Part
deriving DecidableEq, Repr

/-- The blob store: completed objects plus in-flight multipart uploads. -/
structure R2 where
  objects : List R2Object
  uploads : List R2Upload
deriving DecidableEq, Repr

/-- Both storage backends together: the state a handler acts on. -/
structure Store where
  db : Db
  r2 : R2
deriving DecidableEq, Repr

/-- An HTTP error response: status code and message (the handlers throw
`HTTPException(status, message)` / return `c.json({code, message})`). -/
structure Err where
  status : Nat
  message : String
deriving DecidableEq, Repr

/-- Put a blob: replaces any object at the same key, then prepends. -/
def r2Put (objects : List R2Object) (o : R2Object) : List R2Object :=
  o :: objects.filter (fun x => !(x.sessionId == o.sessionId && x.fileId == o.fileId))

/-! ## uploadFiles handler (src/apps/api/src/routes/chest.ts lines 129-301,
src/unnamed/part_012 lines 98-225)

The multipart form body is a list of (field name, value) pairs in form
order; a value is either a `File` part or a string part. String parts under
`textItems` are JSON objects; they are modelled already parsed (the claims
under verification only concern well-formed items). -/

/-- A parsed `textItems` JSON object: content plus optional filename. -/
structure TextItem where
  content : String
  filename : Option String
deriving DecidableEq, Repr

/-- A form-data value: a binary `File` (name, MIME type, content) or a
plain string part. -/
inductive FormValue where
  | file (name : String) (mime : String) (content : String)
  | str (item : TextItem)
deriving DecidableEq, Repr

/-- One entry of the response array `uploadedFiles`. -/
structure UploadedFile where
  fileId : String
  filename : String
  isText : Bool
deriving DecidableEq, Repr

/-- Accumulated effect of processing the form: response entries, queued
blob puts and queued row inserts, plus the next fresh-id index. -/
structure UploadAcc where
  uploadedFiles : List UploadedFile
  r2Operations : List R2Object
  fileInserts : List FileRow
  nextId : Nat
deriving Repr

/-- The filename default of a file part: `value.name || "unnamed-file"`
(a missing name surfaces as the empty string, which is falsy). -/
def fileDefaultName (name : String) : String :=
  if name == "" then "unnamed-file" else name

/-- The MIME-type default of a file part:
`value.type || "application/octet-stream"`. -/
def fileDefaultMime (mime : String) : String :=
  if mime == "" then "application/octet-stream" else mime

/-- The filename default of a text item:
`textData.filename || "text-" + Date.now() + ".txt"` (absent or empty
falls back to the timestamped name). -/
def textDefaultName (nowMsLabel : Int) (item : TextItem) : String :=
  match item.filename with
  | some f => if f == "" then "text-" ++ toString nowMsLabel ++ ".txt" else f
  | none => "text-" ++ toString nowMsLabel ++ ".txt"

/-- The first loop of the upload handler (`for (const [key, value] of
formData.entries())`): process entries whose key is `files` and whose value
is a `File`; allocate a fresh id, default the filename to `unnamed-file`
and the MIME type to `application/octet-stream`, queue the blob put and the
row insert (binary, `isText = 0`), and record the response entry. `ids`
is the fresh-UUID supply and `k` the next supply index. -/
def processFileParts (sessionId : String) (ids : Nat → String) (now : Int) :
    List (String × FormValue) → Nat → UploadAcc
  | [], k => ⟨[], [], [], k⟩
  | (key, v) :: rest, k =>
    if key == "files" then
      match v with
      | .file name mime content =>
        let fileId := ids k
        let filename := fileDefaultName name
        let mimeType := fileDefaultMime mime
        let acc := processFileParts sessionId ids now rest (k + 1)
        { uploadedFiles :=
            ⟨fileId, filename, false⟩ :: acc.uploadedFiles,
          r2Operations := ⟨sessionId, fileId, content⟩ :: acc.r2Operations,
          fileInserts :=
            ⟨fileId, sessionId, filename, mimeType,
              (Int.ofNat content.utf8ByteSize), getFileExtension filename,
              0, now, now, 0⟩ :: acc.fileInserts,
          nextId := acc.nextId }
      | .str _ => processFileParts sessionId ids now rest k
    else processFileParts sessionId ids now rest k

/-- The second loop of the upload handler over
`formData.getAll("textItems")`: process the string values; allocate a fresh
id, default the filename to `text-{Date.now()}.txt` when absent or empty
(the source tests `textData.filename ||`), store the content as
`text/plain` with its UTF-8 byte length, `isText = 1`. -/
def processTextItems (sessionId : String) (ids : Nat → String) (now : Int)
    (nowMsLabel : Int) :
    List FormValue → Nat → UploadAcc
  | [], k => ⟨[], [], [], k⟩
  | v :: rest, k =>
    match v with
    | .str item =>
      let fileId := ids k
      let filename := textDefaultName nowMsLabel item
      let acc := processTextItems sessionId ids now nowMsLabel rest (k + 1)
      { uploadedFiles := ⟨fileId, filename, true⟩ :: acc.uploadedFiles,
        r2Operations := ⟨sessionId, fileId, item.content⟩ :: acc.r2Operations,
        fileInserts :=
          ⟨fileId, sessionId, filename, "text/plain",
            (Int.ofNat item.content.utf8ByteSize), getFileExtension filename,
            1, now, now, 0⟩ :: acc.fileInserts,
        nextId := acc.nextId }
    | .file _ _ _ => processTextItems sessionId ids now nowMsLabel rest k

/-- `formData.getAll("textItems")`: the values of the entries under that
key, in form order. -/
def getAllTextItems (form : List (String × FormValue)) : List FormValue :=
  (form.filter (fun kv => kv.1 == "textItems")).map Prod.snd

/-- Session lookup used by the upload, multipart-create and seal guards:
first non-deleted open session with the given id
(`withNotDeleted(sessions, and(eq(id), eq(uploadComplete, 0)))`, `.get()`). -/
def getOpenSession (db : Db) (sessionId : String) : Option Session :=
  db.sessions.find? (fun s =>
    s.id == sessionId && s.uploadComplete == 0 && s.isDeleted == 0)

/-- Embeds the body of `POST /chest/:sessionId/upload` after token
verification (the auth prologue is the token service above; the handler is
modelled from the point where the upload token has authorized
`sessionId`): check the session is open and not deleted (else 404), run the
two form loops, then apply all queued blob puts and the batched row insert
together, returning the `uploadedFiles` array. -/
def uploadFilesHandler (st : Store) (now : Int) (sessionId : String)
    (ids : Nat → String) (form : List (String × FormValue)) :
    Except Err (List UploadedFile) × Store :=
  match getOpenSession st.db sessionId with
  | none => (.error ⟨404, "Session not found or already completed"⟩, st)
  | some _ =>
    let accF := processFileParts sessionId ids now form 0
    let accT := processTextItems sessionId ids now now
      (getAllTextItems form) accF.nextId
    let puts := accF.r2Operations ++ accT.r2Operations
    let inserts := accF.fileInserts ++ accT.fileInserts
    (.ok (accF.uploadedFiles ++ accT.uploadedFiles),
      { db := { st.db with files := st.db.files ++ inserts },
        r2 := { st.r2 with objects := puts.foldl r2Put st.r2.objects } })

/-! ## Seal handler (src/apps/api/src/routes/chest.ts lines 303-419) -/

/-- Response body of a successful seal: the retrieval code and the expiry
instant (`expiryDate?.toISOString() || null`; the injective ISO-8601
rendering of an instant is modelled as the instant itself). -/
structure SealResp where
  retrievalCode : String
  expiryDate : Option Int
deriving DecidableEq, Repr

/-- Embeds the body of `POST /chest/:sessionId/complete` of the apps/api
variant after token verification (lines 350-399): count the non-deleted
files of the session and reject with 400 unless the count equals
`fileIds.length`; compute the retrieval code (`gen` stands for the value
`generateRetrievalCode()` returned) and the expiry; conditionally update
the non-deleted open session row to sealed with that code and expiry; and
return 200 with the code — the affected-row count of the update is never
inspected. -/
def appApiCompleteChest (st : Store) (now : Int) (sessionId : String)
    (gen : String) (fileIds : List String) (validityDays : Int) :
    Except Err SealResp × Store :=
  let fileCount :=
    (st.db.files.filter (fun f => f.sessionId == sessionId && f.isDeleted == 0)).length
  if fileCount ≠ fileIds.length then
    (.error ⟨400, "Some files do not belong to this session"⟩, st)
  else
    let expiryDate := calculateExpiry now validityDays
    let sessions :=
      st.db.sessions.map (fun s =>
        if s.id == sessionId && s.uploadComplete == 0 && s.isDeleted == 0 then
          { s with retrievalCode := some gen, uploadComplete := 1,
                   expiresAt := expiryDate, updatedAt := now }
        else s)
    (.ok ⟨gen, expiryDate⟩, { st with db := { st.db with sessions := sessions } })

/-! ## Multipart complete handler (src/unnamed/part_012 lines 477-560,
src/apps/api/src/routes/chest.ts lines 647-752) -/

/-- The verified claims of a multipart token as the handler uses them
(the corresponding fields of `MultipartJWTPayload`, all present). -/
structure MultipartPayload where
  sessionId : String
  fileId : String
  uploadId : String
  filename : String
  mimeType : String
  fileSize : Int
deriving DecidableEq, Repr

/-- One element of the request `parts` array: a part number with the etag
the part upload returned. -/
structure PartRef where
  partNumber : Nat
  etag : String
deriving DecidableEq, Repr

/-- Resolve each client-supplied part reference against the parts actually
uploaded: the content of a stored part with matching number and etag, or
failure. -/
def resolveParts (stored : List R2Part) : List PartRef → Option (List String)
  | [] => some []
  | r :: rs =>
    match stored.find? (fun p => p.partNumber == r.partNumber && p.etag == r.etag) with
    | none => none
    | some p =>
      match resolveParts stored rs with
      | none => none
      | some cs => some (p.content :: cs)

/-- The blob store's `resumeMultipartUpload(key, uploadId).complete(parts)`:
locate the in-flight upload at the key with that `uploadId`, assemble the
referenced parts in the supplied order, store the assembled object, and
retire the upload. Fails (rejects) when the upload does not exist or a
referenced part is missing. -/
def r2Complete (r2 : R2) (sessionId fileId uploadId : String)
    (parts : List PartRef) : Option R2 :=
  match r2.uploads.find? (fun u =>
      u.sessionId == sessionId && u.fileId == fileId && u.uploadId == uploadId) with
  | none => none
  | some u =>
    match resolveParts u.parts parts with
    | none => none
    | some cs =>
      some { objects := r2Put r2.objects ⟨sessionId, fileId, String.join cs⟩,
             uploads := r2.uploads.filter (fun x => !(x.sessionId == sessionId &&
               x.fileId == fileId && x.uploadId == uploadId)) }

/-- The comparator of `parts.sort((a, b) => a.partNumber - b.partNumber)`. -/
def partLe (a b : PartRef) : Bool :=
  a.partNumber ≤ b.partNumber

/-- Response body of a successful multipart complete. -/
structure MpCompleteResp where
  fileId : String
  filename : String
deriving DecidableEq, Repr

/-- Embeds the body of `POST /chest/:sessionId/multipart/:fileId/complete`
(part_012 lines 478-560) with the multipart token already verified: path
claims must match the token (403), both ids must be well-formed UUIDs
(400), `parts` must be non-empty (400); then the parts are sorted by part
number ascending and submitted to the blob store's `complete`; only when
the store confirms is the `files` row inserted (binary, metadata from the
token), else the error surfaces (500) with the metadata store untouched. -/
def completeMultipartHandler (st : Store) (now : Int)
    (sessionId fileId : String) (payload : MultipartPayload)
    (parts : List PartRef) : Except Err MpCompleteResp × Store :=
  if payload.sessionId ≠ sessionId ∨ payload.fileId ≠ fileId then
    (.error ⟨403, "Token does not match upload session"⟩, st)
  else if ¬ (isValidUUID sessionId ∧ isValidUUID fileId) then
    (.error ⟨400, "Invalid session or file ID format"⟩, st)
  else if parts.isEmpty then
    (.error ⟨400, "Invalid parts array"⟩, st)
  else
    match r2Complete st.r2 sessionId fileId payload.uploadId
        (parts.mergeSort partLe) with
    | none => (.error ⟨500, "Failed to complete multipart upload"⟩, st)
    | some r2Next =>
      (.ok ⟨fileId, payload.filename⟩,
        { db := { st.db with files := st.db.files ++
            [⟨fileId, sessionId, payload.filename, payload.mimeType,
              payload.fileSize, getFileExtension payload.filename,
              0, now, now, 0⟩] }, r2 := r2Next })

/-! ## Retrieve handler, drizzle variant (src/unnamed/part_009) -/

/-- File metadata as returned by the retrieve endpoint. -/
structure RetrievedFile where
  fileId : String
  filename : String
  size : Int
  mimeType : String
  isText : Bool
  fileExtension : Option String
deriving DecidableEq, Repr

/-- Response body of a successful retrieve. The chest-token mint on the
success path is carried as the session id and expiry it would bind (the
claims of `createChestJWT`); no claim under verification depends on the
token value itself. -/
structure RetrieveResp where
  files : List RetrievedFile
  chestSessionId : String
  expiryDate : Option Int
deriving DecidableEq, Repr

/-- Comparator of `orderBy(files.createdAt)`: ascending creation time. -/
def fileCreatedLe (a b : FileRow) : Bool :=
  a.createdAt ≤ b.createdAt

/-- The truthy expiry test `session.expiresAt && session.expiresAt < new
Date()`: a set expiry strictly in the past. -/
def expiryPassed (expiresAt : Option Int) (now : Int) : Bool :=
  match expiresAt with
  | some t => t < now
  | none => false

/-- Embeds the body of `GET /retrieve/:retrievalCode` of the drizzle
variant (part_009 lines 17-91): first non-deleted sealed session carrying
the code (404 when absent), 404 when `expiresAt` is set and in the past,
list the session's non-deleted files ordered by `createdAt`, 404 when that
list is empty, else the file metadata with the expiry. -/
def retrieveHandler (st : Store) (now : Int) (code : String) :
    Except Err RetrieveResp :=
  match st.db.sessions.find? (fun s =>
      s.retrievalCode == some code && s.uploadComplete == 1 && s.isDeleted == 0) with
  | none => .error ⟨404, "Retrieval code not found or expired"⟩
  | some session =>
    if expiryPassed session.expiresAt now then
      .error ⟨404, "Retrieval code expired"⟩
    else
      let sessionFiles :=
        (st.db.files.filter (fun f =>
          f.sessionId == session.id && f.isDeleted == 0)).mergeSort fileCreatedLe
      if sessionFiles.isEmpty then
        .error ⟨404, "No files found for this session"⟩
      else
        .ok { files := sessionFiles.map (fun f =>
                ⟨f.id, f.originalFilename, f.fileSize, f.mimeType,
                  f.isText ≠ 0, f.fileExtension⟩),
              chestSessionId := session.id,
              expiryDate := session.expiresAt }

/-! ## Retrieve handler, droply-backend worker (src/unnamed/part_004
lines 415-464)

This variant's schema has no soft-delete column: a deleted session is a
removed row, so every row in the table is a non-deleted session. Times are
Unix seconds. -/

/-- A row of the worker's `sessions` table (part_005 schema). -/
structure DSession where
  sessionId : String
  retrievalCode : Option String
  uploadComplete : Bool
  expiryDate : Option Int
  createdAt : Int
  updatedAt : Int
deriving DecidableEq, Repr

/-- A row of the worker's `files` table. -/
structure DFileRow where
  fileId : String
  sessionId : String
  originalFilename : String
  mimeType : String
  fileSize : Int
  fileExtension : Option String
  isText : Bool
  createdAt : Int
deriving DecidableEq, Repr

/-- The worker's session lookup predicate for retrieval:
`retrieval_code = ? AND upload_complete = TRUE AND (expiry_date IS NULL OR
expiry_date > ?)`. -/
def dSessionMatches (code : String) (now : Int) (s : DSession) : Bool :=
  s.retrievalCode == some code && s.uploadComplete &&
    (match s.expiryDate with
     | none => true
     | some t => now < t)

/-- Comparator of the worker's `ORDER BY created_at`. -/
def dFileCreatedLe (a b : DFileRow) : Bool :=
  a.createdAt ≤ b.createdAt

/-- Response body of the worker's retrieve endpoint; the chest-token mint
is carried as the session id and expiry it binds. -/
structure DRetrieveResp where
  files : List RetrievedFile
  chestSessionId : String
  expiryDate : Option Int
deriving DecidableEq, Repr

/-- Embeds `handleRetrieveChest` (part_004 lines 415-464): 400 when the
code fails `isValidRetrievalCode`; find a sealed, unexpired session
carrying the code (`.first()`), 404 when none; list the session's files
ordered by `created_at` and answer with their metadata and the expiry
(there is no empty-file check in this variant). -/
def handleRetrieveChest (sessions : List DSession) (fileRows : List DFileRow)
    (now : Int) (code : String) : Except Err DRetrieveResp :=
  if ¬ isValidRetrievalCode code then
    .error ⟨400, "Invalid retrieval code format"⟩
  else
    match sessions.find? (dSessionMatches code now) with
    | none => .error ⟨404, "Retrieval code not found or expired"⟩
    | some session =>
      let fs := (fileRows.filter (fun f => f.sessionId == session.sessionId)).mergeSort
        dFileCreatedLe
      .ok { files := fs.map (fun f =>
              ⟨f.fileId, f.originalFilename, f.fileSize, f.mimeType,
                f.isText, f.fileExtension⟩),
            chestSessionId := session.sessionId,
            expiryDate := session.expiryDate }

/-! ## Reaper (src/apps/api/src/cron/cleanup.ts) -/

/-- The structured summary `cleanupExpiredContent` returns. -/
structure CleanupResult where
  expiredSessions : Nat
  deletedFiles : Nat
  r2ObjectsDeleted : Nat
  incompleteSessions : Nat
  errors : List String
deriving DecidableEq, Repr

/-- Step 1 of the sweep: non-deleted sessions whose `expiresAt` is set and
strictly before now (`withNotDeleted(sessions, lt(expiresAt, currentTime))`;
a NULL `expiresAt` — the permanent case — never satisfies the SQL
comparison). -/
def expiredSelect (db : Db) (nowMs : Int) : List Session :=
  db.sessions.filter (fun s => s.isDeleted == 0 && expiryPassed s.expiresAt nowMs)

/-- Step 2 of the sweep: non-deleted open sessions created before
`now - 48 h` (milliseconds). -/
def abandonedSelect (db : Db) (nowMs : Int) : List Session :=
  db.sessions.filter (fun s =>
    s.isDeleted == 0 && s.uploadComplete == 0 &&
      s.createdAt < nowMs - 48 * 60 * 60 * 1000)

/-- Per-session cleanup body (cleanup.ts lines 101-175): count the
session's non-deleted files, delete every blob object under the session's
prefix, soft-delete the file rows, then soft-delete the session row.
Returns the new store with the file count and the number of blob objects
deleted. -/
def cleanupOne (st : Store) (now : Int) (sid : String) : Store × Nat × Nat :=
  let fileCount :=
    (st.db.files.filter (fun f => f.sessionId == sid && f.isDeleted == 0)).length
  let objsDeleted := (st.r2.objects.filter (fun o => o.sessionId == sid)).length
  let objects := st.r2.objects.filter (fun o => !(o.sessionId == sid))
  let filesNext := st.db.files.map (fun f =>
    if f.sessionId == sid && f.isDeleted == 0 then
      { f with isDeleted := 1, updatedAt := now }
    else f)
  let sessionsNext := st.db.sessions.map (fun s =>
    if s.id == sid && s.isDeleted == 0 then
      { s with isDeleted := 1, updatedAt := now }
    else s)
  (⟨⟨sessionsNext, filesNext⟩, ⟨objects, st.r2.uploads⟩⟩, fileCount, objsDeleted)

/-- The sweep's per-session loop over the combined cleanup list; each entry
is a session id tagged `true` for reason `expired`, `false` for
`incomplete`. Accumulates (expired, incomplete, deletedFiles,
r2ObjectsDeleted). -/
def processCleanup (now : Int) :
    Store → List (String × Bool) → Store × Nat × Nat × Nat × Nat
  | st, [] => (st, 0, 0, 0, 0)
  | st, (sid, isExpired) :: rest =>
    let one := cleanupOne st now sid
    let acc := processCleanup now one.1 rest
    (acc.1,
      (if isExpired then acc.2.1 + 1 else acc.2.1),
      (if isExpired then acc.2.2.1 else acc.2.2.1 + 1),
      acc.2.2.2.1 + one.2.1,
      acc.2.2.2.2 + one.2.2)

/-- Embeds `cleanupExpiredContent` (cleanup.ts lines 14-201): select the
expired and the abandoned sessions, sweep each in order, and report the
summary. Store operations cannot fail in the pure model, so the `errors`
list is empty. -/
def cleanupExpiredContent (st : Store) (nowMs : Int) : CleanupResult × Store :=
  let toClean :=
    (expiredSelect st.db nowMs).map (fun s => (s.id, true)) ++
      (abandonedSelect st.db nowMs).map (fun s => (s.id, false))
  let res := processCleanup nowMs st toClean
  ({ expiredSessions := res.2.1,
     deletedFiles := res.2.2.2.1,
     r2ObjectsDeleted := res.2.2.2.2,
     incompleteSessions := res.2.2.1,
     errors := [] }, res.1)

/-- The file parts the upload handler accepts, in form order: values under
the key `files` that are `File` instances, as (name, mime, content). -/
def acceptedFileParts (form : List (String × FormValue)) :
    List (String × String × String) :=
  form.filterMap (fun kv =>
    if kv.1 == "files" then
      match kv.2 with
      | .file n m c => some (n, m, c)
      | .str _ => none
    else none)

/-- The string values of a value list (the `typeof textItem === "string"`
test of the second loop). -/
def acceptedTexts (vals : List FormValue) : List TextItem :=
  vals.filterMap (fun v =>
    match v with
    | .str t => some t
    | .file _ _ _ => none)

/-- The text items the upload handler accepts, in form order: string
values under the key `textItems`. -/
def acceptedTextItems (form : List (String × FormValue)) : List TextItem :=
  acceptedTexts (getAllTextItems form)

/-- Fixture for the seal-twice bug: a store holding one already sealed,
non-deleted session (retrieval code "OLDCOD", expiry 99, sealed) and no
files. -/
def sealedFixture : Store :=
  ⟨⟨[⟨"11111111-1111-4111-8111-111111111111", some "OLDCOD", 1, some 99,
      1, 2, 0⟩], []⟩, ⟨[], []⟩⟩

deriving instance DecidableEq for Except

/-! ## Theorems -/

/-- C3: a token minted by `createUploadJWT(sessionId, secret)` verifies
under the same secret via `verifyUploadJWT`, yielding claims with that
`sessionId`, type `"upload"` and `exp = iat + 86400`; the same token is
rejected by `verifyChestJWT` and `verifyMultipartJWT` (wrong token type), is
rejected under any other secret (invalid signature), and is rejected once
the clock passes `exp` (expired). -/
theorem upload_jwt_round_trip (sessionId secret secret2 : String) (now t : Nat)
    (hsec : secret2 ≠ secret) (ht : t > now + 86400) :
    verifyUploadJWT (createUploadJWT sessionId secret now) secret now =
      .ok { sessionId := sessionId, fileId := none, uploadId := none,
            filename := none, mimeType := none, fileSize := none,
            type := "upload", iat := now, exp := now + 86400 } ∧
    (createUploadJWT sessionId secret now).payload.exp =
      (createUploadJWT sessionId secret now).payload.iat + 86400 ∧
    verifyChestJWT (createUploadJWT sessionId secret now) secret now =
      .error .wrongTokenType ∧
    verifyMultipartJWT (createUploadJWT sessionId secret now) secret now =
      .error .wrongTokenType ∧
    verifyUploadJWT (createUploadJWT sessionId secret now) secret2 now =
      .error .invalidSignature ∧
    verifyUploadJWT (createUploadJWT sessionId secret now) secret t =
      .error .expired := by
  refine ⟨?_, rfl, ?_, ?_, ?_, ?_⟩
  · simp [verifyUploadJWT, verifyJWT, createUploadJWT, signJWT]
  · simp [verifyChestJWT, verifyJWT, createUploadJWT, signJWT]
  · simp [verifyMultipartJWT, verifyJWT, createUploadJWT, signJWT]
  · simp [verifyUploadJWT, verifyJWT, createUploadJWT, signJWT, Ne.symm hsec]
  · simp [verifyUploadJWT, verifyJWT, createUploadJWT, signJWT, ht]

/-- Closed witness for `upload_jwt_round_trip` at `sessionId = "s"`,
`secret = "k"`, a different secret `"x"` and a verification time one second
past expiry. -/
theorem upload_jwt_round_trip_witness :
    verifyUploadJWT (createUploadJWT "s" "k" 0) "k" 0 =
      .ok { sessionId := "s", fileId := none, uploadId := none,
            filename := none, mimeType := none, fileSize := none,
            type := "upload", iat := 0, exp := 0 + 86400 } ∧
    verifyUploadJWT (createUploadJWT "s" "k" 0) "x" 0 =
      .error .invalidSignature ∧
    verifyUploadJWT (createUploadJWT "s" "k" 0) "k" 86401 =
      .error .expired :=
  ⟨(upload_jwt_round_trip "s" "k" "x" 0 86401 (by decide) (by decide)).1,
   (upload_jwt_round_trip "s" "k" "x" 0 86401 (by decide) (by decide)).2.2.2.2.1,
   (upload_jwt_round_trip "s" "k" "x" 0 86401 (by decide) (by decide)).2.2.2.2.2⟩

/-- C4: for `validityDays` in `{1, 3, 7, 15}` `calculateExpiry` yields the
seal instant plus `d · 86400` seconds (milliseconds timeline in the drizzle
variant, seconds timeline in the worker variant), and `-1` yields NULL;
the seal handler's response carries exactly that instant (rendered
ISO-8601, modelled as the instant) or `null` for the permanent case. -/
theorem calculate_expiry_spec (nowMs nowSec d : Int)
    (hd : d = 1 ∨ d = 3 ∨ d = 7 ∨ d = 15) :
    calculateExpiry nowMs d = some (nowMs + d * 86400 * 1000) ∧
    calculateExpirySec nowSec d = some (nowSec + d * 86400) ∧
    calculateExpiry nowMs (-1) = none ∧
    calculateExpirySec nowSec (-1) = none ∧
    (∀ st sessionId gen fileIds,
      (st.db.files.filter (fun f =>
        f.sessionId == sessionId && f.isDeleted == 0)).length = fileIds.length →
      (appApiCompleteChest st nowMs sessionId gen fileIds d).1 =
        .ok ⟨gen, some (nowMs + d * 86400 * 1000)⟩ ∧
      (appApiCompleteChest st nowMs sessionId gen fileIds (-1)).1 =
        .ok ⟨gen, none⟩) := by
  have hne : d ≠ -1 := by rcases hd with h | h | h | h <;> omega
  have hval : calculateExpiry nowMs d = some (nowMs + d * 86400 * 1000) := by
    simp only [calculateExpiry, if_neg hne]
    congr 1
    ring
  have hvalSec : calculateExpirySec nowSec d = some (nowSec + d * 86400) := by
    simp only [calculateExpirySec, if_neg hne]
    congr 1
    ring
  refine ⟨hval, hvalSec, by simp [calculateExpiry], by simp [calculateExpirySec],
    fun st sessionId gen fileIds hcount => ?_⟩
  constructor
  · simp [appApiCompleteChest, hcount, hval]
  · simp [appApiCompleteChest, hcount, calculateExpiry]

/-- Closed witness for `calculate_expiry_spec`: seal time 0, seven days of
validity, an empty store with an empty `fileIds` list. -/
theorem calculate_expiry_spec_witness :
    calculateExpiry 0 7 = some (0 + 7 * 86400 * 1000) ∧
    calculateExpirySec 0 7 = some (0 + 7 * 86400) ∧
    calculateExpiry 0 (-1) = none ∧
    (appApiCompleteChest ⟨⟨[], []⟩, ⟨[], []⟩⟩ 0 "s" "ABC123" [] 7).1 =
      .ok ⟨"ABC123", some (0 + 7 * 86400 * 1000)⟩ ∧
    (appApiCompleteChest ⟨⟨[], []⟩, ⟨[], []⟩⟩ 0 "s" "ABC123" [] (-1)).1 =
      .ok ⟨"ABC123", none⟩ := by
  have h := calculate_expiry_spec 0 0 7 (by decide)
  exact ⟨h.1, h.2.1, h.2.2.1,
    (h.2.2.2.2 ⟨⟨[], []⟩, ⟨[], []⟩⟩ "s" "ABC123" [] (by decide)).1,
    (h.2.2.2.2 ⟨⟨[], []⟩, ⟨[], []⟩⟩ "s" "ABC123" [] (by decide)).2⟩

/-- C5: the worker's retrieve endpoint answers 400 for every code failing
the `^[A-Z0-9]\x7b6\x7d$` format test, and 404 for every well-formed code
for which no sealed, non-expired session row exists (this schema hard
deletes, so existing rows are exactly the non-deleted sessions). -/
theorem retrieve_code_validation (sessions : List DSession)
    (fileRows : List DFileRow) (now : Int) (code : String) :
    (isValidRetrievalCode code = false →
      handleRetrieveChest sessions fileRows now code =
        .error ⟨400, "Invalid retrieval code format"⟩) ∧
    (isValidRetrievalCode code = true →
      (∀ s ∈ sessions, dSessionMatches code now s = false) →
      handleRetrieveChest sessions fileRows now code =
        .error ⟨404, "Retrieval code not found or expired"⟩) := by
  constructor
  · intro hbad
    simp [handleRetrieveChest, hbad]
  · intro hgood hnone
    have hfind : sessions.find? (dSessionMatches code now) = none :=
      List.find?_eq_none.mpr (by simpa using hnone)
    simp [handleRetrieveChest, hgood, hfind]

/-- Closed witness for `retrieve_code_validation`: the five-character code
"12345" is malformed (400), and the well-formed code "ABCD99" is unknown in
an empty sessions table (404). -/
theorem retrieve_code_validation_witness :
    handleRetrieveChest [] [] 0 "12345" =
      .error ⟨400, "Invalid retrieval code format"⟩ ∧
    handleRetrieveChest [] [] 0 "ABCD99" =
      .error ⟨404, "Retrieval code not found or expired"⟩ :=
  ⟨(retrieve_code_validation [] [] 0 "12345").1 (by decide),
   (retrieve_code_validation [] [] 0 "ABCD99").2 (by decide) (by simp)⟩

/-- C1 (bug evaluation): sealing the already-sealed session of
`sealedFixture` leaves the session row byte-identical (the conditional
update matches zero rows), yet the apps/api handler answers success with
the freshly generated code "NEWCOD" — it never inspects the affected-row
count — so the caller receives a retrieval code that was never stored.
The claim (and the droply-backend variant, which checks
`meta.changes === 0` and answers 404) requires an error here. -/
theorem seal_already_sealed_success_bug :
    appApiCompleteChest sealedFixture 50
        "11111111-1111-4111-8111-111111111111" "NEWCOD" [] 7 =
      (.ok ⟨"NEWCOD", some 604800050⟩, sealedFixture) := by
  decide

theorem processFileParts_of_no_files (sessionId : String) (ids : Nat → String)
    (now : Int) (form : List (String × FormValue)) :
    ∀ (k : Nat), (∀ kv ∈ form, kv.1 ≠ "files") →
      processFileParts sessionId ids now form k = ⟨[], [], [], k⟩ := by
  induction form with
  | nil => intro k _; rfl
  | cons kv rest ih =>
    intro k h
    obtain ⟨key, v⟩ := kv
    have hk : (key == "files") = false :=
      beq_eq_false_iff_ne.mpr (h (key, v) (by simp))
    simp only [processFileParts, hk, Bool.false_eq_true, if_false]
    exact ih k fun kv2 h2 => h kv2 (by simp [h2])

theorem getAllTextItems_of_no_textItems (form : List (String × FormValue))
    (h : ∀ kv ∈ form, kv.1 ≠ "textItems") : getAllTextItems form = [] := by
  unfold getAllTextItems
  have : form.filter (fun kv => kv.1 == "textItems") = [] :=
    List.filter_eq_nil_iff.mpr (fun kv hkv => by
      simpa using h kv hkv)
  simp [this]

/-- C10: an `uploadFiles` request against an open, non-deleted session
whose form carries no `files` part and no `textItems` part succeeds with
an empty `uploadedFiles` array and leaves both stores untouched: no blob
put and no `files` row insert happens. -/
theorem upload_empty_form_noop (st : Store) (now : Int) (sessionId : String)
    (ids : Nat → String) (form : List (String × FormValue))
    (hopen : (getOpenSession st.db sessionId).isSome)
    (hform : ∀ kv ∈ form, kv.1 ≠ "files" ∧ kv.1 ≠ "textItems") :
    uploadFilesHandler st now sessionId ids form = (.ok [], st) := by
  obtain ⟨s, hs⟩ := Option.isSome_iff_exists.mp hopen
  have hf : processFileParts sessionId ids now form 0 = ⟨[], [], [], 0⟩ :=
    processFileParts_of_no_files sessionId ids now form 0
      (fun kv hkv => (hform kv hkv).1)
  have ht : getAllTextItems form = [] :=
    getAllTextItems_of_no_textItems form (fun kv hkv => (hform kv hkv).2)
  simp [uploadFilesHandler, hs, hf, ht, processTextItems]

/-- Closed witness for `upload_empty_form_noop`: an open session and a form
holding a single unrelated field. -/
theorem upload_empty_form_noop_witness :
    uploadFilesHandler
        ⟨⟨[⟨"22222222-2222-4222-8222-222222222222", none, 0, none, 1, 1, 0⟩],
          []⟩, ⟨[], []⟩⟩
        5 "22222222-2222-4222-8222-222222222222" (fun _ => "fresh")
        [("other", .str ⟨"x", none⟩)] =
      (.ok [],
        ⟨⟨[⟨"22222222-2222-4222-8222-222222222222", none, 0, none, 1, 1, 0⟩],
          []⟩, ⟨[], []⟩⟩) :=
  upload_empty_form_noop _ 5 _ _ _ (by decide) (by decide)

theorem acceptedFileParts_cons_file (key n m c : String)
    (rest : List (String × FormValue)) (hk : (key == "files") = true) :
    acceptedFileParts ((key, .file n m c) :: rest) =
      (n, m, c) :: acceptedFileParts rest := by
  have he : key = "files" := by simpa using hk
  simp [acceptedFileParts, List.filterMap_cons, he]

theorem acceptedFileParts_cons_str (key : String) (t : TextItem)
    (rest : List (String × FormValue)) :
    acceptedFileParts ((key, .str t) :: rest) = acceptedFileParts rest := by
  by_cases hk : key == "files" <;> simp [acceptedFileParts, List.filterMap_cons, hk]

theorem acceptedFileParts_cons_other (key : String) (v : FormValue)
    (rest : List (String × FormValue)) (hk : (key == "files") = false) :
    acceptedFileParts ((key, v) :: rest) = acceptedFileParts rest := by
  have hne : key ≠ "files" := by simpa using hk
  simp [acceptedFileParts, List.filterMap_cons, hne]

theorem processFileParts_spec (sessionId : String) (ids : Nat → String)
    (now : Int) (form : List (String × FormValue)) :
    ∀ (k : Nat),
      (processFileParts sessionId ids now form k).uploadedFiles =
        (acceptedFileParts form).mapIdx
          (fun i p => ⟨ids (k + i), fileDefaultName p.1, false⟩) ∧
      (processFileParts sessionId ids now form k).nextId =
        k + (acceptedFileParts form).length := by
  induction form with
  | nil => intro k; simp [processFileParts, acceptedFileParts]
  | cons kv rest ih =>
    intro k
    obtain ⟨key, v⟩ := kv
    by_cases hk : key == "files"
    · cases v with
      | file n m c =>
        rw [acceptedFileParts_cons_file key n m c rest hk]
        have hshift :
            (fun i (p : String × String × String) =>
              (⟨ids (k + 1 + i), fileDefaultName p.1, false⟩ : UploadedFile)) =
            (fun i p => ⟨ids (k + (i + 1)), fileDefaultName p.1, false⟩) := by
          funext i p
          have h1 : k + 1 + i = k + (i + 1) := by omega
          rw [h1]
        constructor
        · simp only [processFileParts, hk, if_true]
          simp only [List.mapIdx_cons, Nat.add_zero]
          rw [(ih (k + 1)).1, hshift]
        · simp only [processFileParts, hk, if_true]
          rw [(ih (k + 1)).2]
          simp only [List.length_cons]
          omega
      | str t =>
        rw [acceptedFileParts_cons_str key t rest]
        simp only [processFileParts, hk, if_true]
        exact ih k
    · have hk2 : (key == "files") = false := by simpa using hk
      rw [acceptedFileParts_cons_other key v rest hk2]
      simp only [processFileParts, hk2, Bool.false_eq_true, if_false]
      exact ih k

theorem acceptedTexts_cons_str (t : TextItem) (rest : List FormValue) :
    acceptedTexts (.str t :: rest) = t :: acceptedTexts rest := by
  simp [acceptedTexts, List.filterMap_cons]

theorem acceptedTexts_cons_file (n m c : String) (rest : List FormValue) :
    acceptedTexts (.file n m c :: rest) = acceptedTexts rest := by
  simp [acceptedTexts, List.filterMap_cons]

theorem processTextItems_spec (sessionId : String) (ids : Nat → String)
    (now nowMsLabel : Int) (vals : List FormValue) :
    ∀ (k : Nat),
      (processTextItems sessionId ids now nowMsLabel vals k).uploadedFiles =
        (acceptedTexts vals).mapIdx
          (fun j t => ⟨ids (k + j), textDefaultName nowMsLabel t, true⟩) := by
  induction vals with
  | nil => intro k; simp [processTextItems, acceptedTexts]
  | cons v rest ih =>
    intro k
    cases v with
    | str t =>
      rw [acceptedTexts_cons_str t rest]
      have hshift :
          (fun j (t2 : TextItem) =>
            (⟨ids (k + 1 + j), textDefaultName nowMsLabel t2, true⟩ :
              UploadedFile)) =
          (fun j t2 => ⟨ids (k + (j + 1)), textDefaultName nowMsLabel t2, true⟩) := by
        funext j t2
        have h1 : k + 1 + j = k + (j + 1) := by omega
        rw [h1]
      simp only [processTextItems]
      simp only [List.mapIdx_cons, Nat.add_zero]
      rw [ih (k + 1), hshift]
    | file n m c =>
      rw [acceptedTexts_cons_file n m c rest]
      simp only [processTextItems]
      exact ih k

/-- C6: the `uploadedFiles` array of a successful `uploadFiles` request
holds exactly one entry per accepted form part, in the input order of the
form: all accepted `files` parts first, in form-part order, with
`isText = false`, followed by all accepted `textItems` parts in form-part
order with `isText = true`; fresh file ids are allocated sequentially
across the two groups and filenames fall back to their documented
defaults. -/
theorem upload_response_order (st : Store) (now : Int) (sessionId : String)
    (ids : Nat → String) (form : List (String × FormValue))
    (hopen : (getOpenSession st.db sessionId).isSome) :
    (uploadFilesHandler st now sessionId ids form).1 =
      .ok ((acceptedFileParts form).mapIdx
            (fun i p => ⟨ids i, fileDefaultName p.1, false⟩) ++
          (acceptedTextItems form).mapIdx
            (fun j t => ⟨ids ((acceptedFileParts form).length + j),
              textDefaultName now t, true⟩)) := by
  obtain ⟨s, hs⟩ := Option.isSome_iff_exists.mp hopen
  have hF := processFileParts_spec sessionId ids now form 0
  have hT := processTextItems_spec sessionId ids now now (getAllTextItems form)
    ((processFileParts sessionId ids now form 0).nextId)
  have h0 : (fun i (p : String × String × String) =>
      (⟨ids (0 + i), fileDefaultName p.1, false⟩ : UploadedFile)) =
      (fun i p => ⟨ids i, fileDefaultName p.1, false⟩) := by
    funext i p
    rw [Nat.zero_add]
  have hlen : (processFileParts sessionId ids now form 0).nextId =
      (acceptedFileParts form).length := by
    rw [hF.2, Nat.zero_add]
  simp only [uploadFilesHandler, hs]
  rw [hT, hF.1, h0, hlen]
  rfl

/-- Closed witness for `upload_response_order`: a form with two file parts
(the second with empty name and MIME type) around one text item; the
response lists the files first, then the text item, each in form order
with sequentially allocated ids. -/
theorem upload_response_order_witness :
    (uploadFilesHandler
        ⟨⟨[⟨"22222222-2222-4222-8222-222222222222", none, 0, none, 1, 1, 0⟩],
          []⟩, ⟨[], []⟩⟩
        5 "22222222-2222-4222-8222-222222222222"
        (fun n => "id" ++ toString n)
        [("files", .file "a.txt" "text/plain" "hello"),
         ("textItems", .str ⟨"hi", some "b.txt"⟩),
         ("files", .file "" "" "x")]).1 =
      .ok [⟨"id0", "a.txt", false⟩, ⟨"id1", "unnamed-file", false⟩,
           ⟨"id2", "b.txt", true⟩] := by
  have h := upload_response_order
    ⟨⟨[⟨"22222222-2222-4222-8222-222222222222", none, 0, none, 1, 1, 0⟩],
      []⟩, ⟨[], []⟩⟩
    5 "22222222-2222-4222-8222-222222222222"
    (fun n => "id" ++ toString n)
    [("files", .file "a.txt" "text/plain" "hello"),
     ("textItems", .str ⟨"hi", some "b.txt"⟩),
     ("files", .file "" "" "x")]
    (by decide)
  exact h.trans (by decide)

/-- C2: the multipart-complete handler commits the files row only after
the blob store confirms assembly: on any error the files table is exactly
as before (no row for the token fileId), and on success the blob store
completed the client-supplied parts sorted by part number ascending (a
sorted permutation of the request parts) before the single row carrying
the token metadata was appended. -/
theorem multipart_complete_commit (st : Store) (now : Int)
    (sessionId fileId : String) (payload : MultipartPayload)
    (parts : List PartRef)
    (hfresh : ∀ f ∈ st.db.files, f.id ≠ fileId) :
    (∀ e st2,
      completeMultipartHandler st now sessionId fileId payload parts =
        (.error e, st2) →
      st2.db.files = st.db.files ∧ ∀ f ∈ st2.db.files, f.id ≠ fileId) ∧
    (∀ resp st2,
      completeMultipartHandler st now sessionId fileId payload parts =
        (.ok resp, st2) →
      ∃ r2n, r2Complete st.r2 sessionId fileId payload.uploadId
          (parts.mergeSort partLe) = some r2n ∧
        st2 = ⟨⟨st.db.sessions, st.db.files ++
          [⟨fileId, sessionId, payload.filename, payload.mimeType,
            payload.fileSize, getFileExtension payload.filename,
            0, now, now, 0⟩]⟩, r2n⟩ ∧
        resp = ⟨fileId, payload.filename⟩ ∧
        (parts.mergeSort partLe).Pairwise
          (fun a b => a.partNumber ≤ b.partNumber) ∧
        (parts.mergeSort partLe).Perm parts) := by
  have herr : ∀ st2 : Store, st2 = st →
      st2.db.files = st.db.files ∧ ∀ f ∈ st2.db.files, f.id ≠ fileId := by
    intro st2 h
    subst h
    exact ⟨rfl, hfresh⟩
  constructor
  · intro e st2 heq
    unfold completeMultipartHandler at heq
    split at heq
    · simp only [Prod.mk.injEq] at heq
      exact herr st2 heq.2.symm
    · split at heq
      · simp only [Prod.mk.injEq] at heq
        exact herr st2 heq.2.symm
      · split at heq
        · simp only [Prod.mk.injEq] at heq
          exact herr st2 heq.2.symm
        · split at heq
          · simp only [Prod.mk.injEq] at heq
            exact herr st2 heq.2.symm
          · simp only [Prod.mk.injEq] at heq
            exact absurd heq.1 (by simp)
  · intro resp st2 heq
    unfold completeMultipartHandler at heq
    split at heq
    · simp only [Prod.mk.injEq] at heq
      exact absurd heq.1 (by simp)
    · split at heq
      · simp only [Prod.mk.injEq] at heq
        exact absurd heq.1 (by simp)
      · split at heq
        · simp only [Prod.mk.injEq] at heq
          exact absurd heq.1 (by simp)
        · split at heq
          · simp only [Prod.mk.injEq] at heq
            exact absurd heq.1 (by simp)
          · rename_i r2n hr2
            simp only [Prod.mk.injEq] at heq
            obtain ⟨hresp, hst⟩ := heq
            have hresp2 : resp = ⟨fileId, payload.filename⟩ := by
              cases hresp
              · rfl
            refine ⟨r2n, hr2, ?_, hresp2, ?_,
              List.mergeSort_perm parts partLe⟩
            · exact hst.symm
            · have htrans : ∀ a b c : PartRef, partLe a b = true →
                  partLe b c = true → partLe a c = true := by
                intro a b c hab hbc
                simp only [partLe, decide_eq_true_eq] at hab hbc ⊢
                omega
              have htotal : ∀ a b : PartRef,
                  (partLe a b || partLe b a) = true := by
                intro a b
                simp only [partLe, Bool.or_eq_true, decide_eq_true_eq]
                omega
              have hsorted := List.sorted_mergeSort htrans htotal parts
              exact hsorted.imp (fun hab => by
                simpa [partLe] using hab)

/-- Closed witness for `multipart_complete_commit`: a store holding one
in-flight upload with a single part, completed successfully. -/
theorem multipart_complete_commit_witness :
    ∃ r2n, r2Complete
        ⟨[], [⟨"33333333-3333-4333-8333-333333333333",
               "44444444-4444-4444-8444-444444444444", "up1",
               [⟨1, "e1", "hello"⟩]⟩]⟩
        "33333333-3333-4333-8333-333333333333"
        "44444444-4444-4444-8444-444444444444" "up1"
        ([⟨1, "e1"⟩].mergeSort partLe) = some r2n ∧
      (⟨⟨[], [⟨"44444444-4444-4444-8444-444444444444",
              "33333333-3333-4333-8333-333333333333", "big.bin",
              "application/octet-stream", 20, some "bin", 0, 9, 9, 0⟩]⟩,
        ⟨[⟨"33333333-3333-4333-8333-333333333333",
           "44444444-4444-4444-8444-444444444444", "hello"⟩], []⟩⟩
        : Store) =
        ⟨⟨[], [⟨"44444444-4444-4444-8444-444444444444",
                "33333333-3333-4333-8333-333333333333", "big.bin",
                "application/octet-stream", 20, some "bin", 0, 9, 9, 0⟩]⟩,
          r2n⟩ ∧
      (⟨"44444444-4444-4444-8444-444444444444", "big.bin"⟩ : MpCompleteResp) =
        ⟨"44444444-4444-4444-8444-444444444444", "big.bin"⟩ ∧
      (([⟨1, "e1"⟩] : List PartRef).mergeSort partLe).Pairwise
        (fun a b => a.partNumber ≤ b.partNumber) ∧
      (([⟨1, "e1"⟩] : List PartRef).mergeSort partLe).Perm [⟨1, "e1"⟩] :=
  (multipart_complete_commit
      ⟨⟨[], []⟩, ⟨[], [⟨"33333333-3333-4333-8333-333333333333",
        "44444444-4444-4444-8444-444444444444", "up1",
        [⟨1, "e1", "hello"⟩]⟩]⟩⟩
      9 "33333333-3333-4333-8333-333333333333"
      "44444444-4444-4444-8444-444444444444"
      ⟨"33333333-3333-4333-8333-333333333333",
        "44444444-4444-4444-8444-444444444444", "up1", "big.bin",
        "application/octet-stream", 20⟩
      [⟨1, "e1"⟩]
      (by decide)).2
    ⟨"44444444-4444-4444-8444-444444444444", "big.bin"⟩
    ⟨⟨[], [⟨"44444444-4444-4444-8444-444444444444",
            "33333333-3333-4333-8333-333333333333", "big.bin",
            "application/octet-stream", 20, some "bin", 0, 9, 9, 0⟩]⟩,
      ⟨[⟨"33333333-3333-4333-8333-333333333333",
         "44444444-4444-4444-8444-444444444444", "hello"⟩], []⟩⟩
    (by
      simp only [completeMultipartHandler, List.mergeSort_singleton]
      decide)

theorem processCleanup_uploads (now : Int) (L : List (String × Bool)) :
    ∀ st : Store, (processCleanup now st L).1.r2.uploads = st.r2.uploads := by
  induction L with
  | nil => intro st; rfl
  | cons hd rest ih =>
    intro st
    obtain ⟨sid, r⟩ := hd
    simp only [processCleanup, cleanupOne]
    exact ih _

theorem processCleanup_sessions (now : Int) (L : List (String × Bool)) :
    ∀ st : Store, (processCleanup now st L).1.db.sessions =
      st.db.sessions.map (fun s =>
        if s.isDeleted == 0 && (L.map Prod.fst).contains s.id then
          { s with isDeleted := 1, updatedAt := now }
        else s) := by
  induction L with
  | nil =>
    intro st
    simp [processCleanup]
  | cons hd rest ih =>
    intro st
    obtain ⟨sid, r⟩ := hd
    simp only [processCleanup]
    rw [ih]
    simp only [cleanupOne, List.map_map, List.map_cons]
    apply List.map_congr_left
    intro s _
    simp only [Function.comp]
    by_cases hd0 : s.isDeleted == 0
    · by_cases hid : s.id == sid
      · have he : s.id = sid := by simpa using hid
        simp [hd0, he, List.contains_cons]
      · have he : s.id ≠ sid := by simpa using hid
        simp [hd0, hid, he, List.contains_cons]
    · simp [hd0, List.contains_cons]

theorem processCleanup_files (now : Int) (L : List (String × Bool)) :
    ∀ st : Store, (processCleanup now st L).1.db.files =
      st.db.files.map (fun f =>
        if f.isDeleted == 0 && (L.map Prod.fst).contains f.sessionId then
          { f with isDeleted := 1, updatedAt := now }
        else f) := by
  induction L with
  | nil =>
    intro st
    simp [processCleanup]
  | cons hd rest ih =>
    intro st
    obtain ⟨sid, r⟩ := hd
    simp only [processCleanup]
    rw [ih]
    simp only [cleanupOne, List.map_map, List.map_cons]
    apply List.map_congr_left
    intro f _
    simp only [Function.comp]
    by_cases hd0 : f.isDeleted == 0
    · by_cases hid : f.sessionId == sid
      · have he : f.sessionId = sid := by simpa using hid
        simp [hd0, he, List.contains_cons]
      · have he : f.sessionId ≠ sid := by simpa using hid
        simp [hd0, hid, he, List.contains_cons]
    · simp [hd0, List.contains_cons]

theorem processCleanup_objects (now : Int) (L : List (String × Bool)) :
    ∀ st : Store, (processCleanup now st L).1.r2.objects =
      st.r2.objects.filter (fun o =>
        !((L.map Prod.fst).contains o.sessionId)) := by
  induction L with
  | nil =>
    intro st
    simp [processCleanup]
  | cons hd rest ih =>
    intro st
    obtain ⟨sid, r⟩ := hd
    simp only [processCleanup]
    rw [ih]
    simp only [cleanupOne, List.filter_filter, List.map_cons]
    apply List.filter_congr
    intro o _
    by_cases hid : o.sessionId == sid
    · have he : o.sessionId = sid := by simpa using hid
      simp [he, List.contains_cons]
    · have he : o.sessionId ≠ sid := by simpa using hid
      simp [hid, he, List.contains_cons]

/-- C7: no reaper sweep touches a sealed permanent chest. A non-deleted
session with `uploadComplete = 1` and `expiresAt = NULL` is selected
neither by the expired query (the SQL comparison on NULL never holds) nor
by the abandoned query (it is sealed), so after `cleanupExpiredContent`
the session row is present unchanged, every one of its file rows is
present unchanged, and every blob object under its prefix is still in the
store. -/
theorem reaper_spares_permanent (st : Store) (nowMs : Int) (s : Session)
    (hnodup : (st.db.sessions.map Session.id).Nodup)
    (hs : s ∈ st.db.sessions)
    (hsealed : s.uploadComplete = 1)
    (hperm : s.expiresAt = none)
    (hlive : s.isDeleted = 0) :
    s ∈ (cleanupExpiredContent st nowMs).2.db.sessions ∧
    (∀ f ∈ st.db.files, f.sessionId = s.id →
      f ∈ (cleanupExpiredContent st nowMs).2.db.files) ∧
    (∀ o ∈ st.r2.objects, o.sessionId = s.id →
      o ∈ (cleanupExpiredContent st nowMs).2.r2.objects) := by
  set toClean :=
    (expiredSelect st.db nowMs).map (fun s => (s.id, true)) ++
      (abandonedSelect st.db nowMs).map (fun s => (s.id, false)) with htc
  have hst2 : (cleanupExpiredContent st nowMs).2 =
      (processCleanup nowMs st toClean).1 := rfl
  have hnotin : (toClean.map Prod.fst).contains s.id = false := by
    by_contra hcon
    have hc : (toClean.map Prod.fst).contains s.id = true := by
      revert hcon
      cases (toClean.map Prod.fst).contains s.id <;> simp
    have hmem : s.id ∈ toClean.map Prod.fst := by
      have := List.elem_iff.mp hc
      exact this
    obtain ⟨pair, hpair, hfst⟩ := List.mem_map.mp hmem
    rw [htc] at hpair
    rcases List.mem_append.mp hpair with hE | hA
    · obtain ⟨r, hrE, hrp⟩ := List.mem_map.mp hE
      have hrid : r.id = s.id := by rw [← hfst, ← hrp]
      have hrmem : r ∈ st.db.sessions := (List.mem_filter.mp hrE).1
      have hreq : r = s := List.inj_on_of_nodup_map hnodup hrmem hs hrid
      have hp := (List.mem_filter.mp hrE).2
      rw [hreq] at hp
      simp [expiryPassed, hperm] at hp
    · obtain ⟨r, hrA, hrp⟩ := List.mem_map.mp hA
      have hrid : r.id = s.id := by rw [← hfst, ← hrp]
      have hrmem : r ∈ st.db.sessions := (List.mem_filter.mp hrA).1
      have hreq : r = s := List.inj_on_of_nodup_map hnodup hrmem hs hrid
      have hp := (List.mem_filter.mp hrA).2
      rw [hreq] at hp
      simp [hsealed] at hp
  refine ⟨?_, ?_, ?_⟩
  · rw [hst2, processCleanup_sessions]
    refine List.mem_map.mpr ⟨s, hs, ?_⟩
    rw [hnotin]
    simp
  · intro f hf hfs
    rw [hst2, processCleanup_files]
    refine List.mem_map.mpr ⟨f, hf, ?_⟩
    rw [hfs, hnotin]
    simp
  · intro o ho hos
    rw [hst2, processCleanup_objects]
    refine List.mem_filter.mpr ⟨ho, ?_⟩
    rw [hos, hnotin]
    simp

theorem contains_toClean_of_expired (st : Store) (nowMs : Int) (s0 : Session)
    (hmem : s0 ∈ expiredSelect st.db nowMs) :
    ((((expiredSelect st.db nowMs).map (fun s => (s.id, true)) ++
      (abandonedSelect st.db nowMs).map (fun s => (s.id, false))).map
        Prod.fst).contains s0.id) = true := by
  apply List.elem_iff.mpr
  apply List.mem_map.mpr
  refine ⟨(s0.id, true), ?_, rfl⟩
  apply List.mem_append.mpr
  exact Or.inl (List.mem_map.mpr ⟨s0, hmem, rfl⟩)

theorem contains_toClean_of_abandoned (st : Store) (nowMs : Int) (s0 : Session)
    (hmem : s0 ∈ abandonedSelect st.db nowMs) :
    ((((expiredSelect st.db nowMs).map (fun s => (s.id, true)) ++
      (abandonedSelect st.db nowMs).map (fun s => (s.id, false))).map
        Prod.fst).contains s0.id) = true := by
  apply List.elem_iff.mpr
  apply List.mem_map.mpr
  refine ⟨(s0.id, false), ?_, rfl⟩
  apply List.mem_append.mpr
  exact Or.inr (List.mem_map.mpr ⟨s0, hmem, rfl⟩)

theorem expiredSelect_after_sweep (st : Store) (nowMs : Int) :
    expiredSelect (cleanupExpiredContent st nowMs).2.db nowMs = [] := by
  set toClean :=
    (expiredSelect st.db nowMs).map (fun s => (s.id, true)) ++
      (abandonedSelect st.db nowMs).map (fun s => (s.id, false)) with htc
  have hst2 : (cleanupExpiredContent st nowMs).2 =
      (processCleanup nowMs st toClean).1 := rfl
  rw [hst2]
  unfold expiredSelect
  rw [processCleanup_sessions, List.filter_map, List.map_eq_nil_iff]
  apply List.filter_eq_nil_iff.mpr
  intro s0 hs0
  simp only [Function.comp]
  by_cases hd0 : s0.isDeleted == 0
  · by_cases hc : (toClean.map Prod.fst).contains s0.id
    · simp only [hd0, hc]
      simp
    · have hcf : (toClean.map Prod.fst).contains s0.id = false := by
        simpa using hc
      by_cases hexp : expiryPassed s0.expiresAt nowMs
      · exfalso
        apply hc
        exact contains_toClean_of_expired st nowMs s0
          (List.mem_filter.mpr ⟨hs0, by simp [hd0, hexp]⟩)
      · simp only [hd0, hcf]
        simp [hexp]
  · have hne : s0.isDeleted ≠ 0 := by simpa using hd0
    simp [hne]

theorem abandonedSelect_after_sweep (st : Store) (nowMs : Int) :
    abandonedSelect (cleanupExpiredContent st nowMs).2.db nowMs = [] := by
  set toClean :=
    (expiredSelect st.db nowMs).map (fun s => (s.id, true)) ++
      (abandonedSelect st.db nowMs).map (fun s => (s.id, false)) with htc
  have hst2 : (cleanupExpiredContent st nowMs).2 =
      (processCleanup nowMs st toClean).1 := rfl
  rw [hst2]
  unfold abandonedSelect
  rw [processCleanup_sessions, List.filter_map, List.map_eq_nil_iff]
  apply List.filter_eq_nil_iff.mpr
  intro s0 hs0
  simp only [Function.comp]
  by_cases hd0 : s0.isDeleted == 0
  · by_cases hc : (toClean.map Prod.fst).contains s0.id
    · simp only [hd0, hc]
      simp
    · have hcf : (toClean.map Prod.fst).contains s0.id = false := by
        simpa using hc
      by_cases hup : (s0.uploadComplete == 0) = true
      · by_cases hcr : (decide (s0.createdAt < nowMs - 48 * 60 * 60 * 1000)) = true
        · exfalso
          apply hc
          exact contains_toClean_of_abandoned st nowMs s0
            (List.mem_filter.mpr ⟨hs0, by
              have hlt : s0.createdAt < nowMs - 48 * 60 * 60 * 1000 := by
                simpa using hcr
              simp [hd0, hup]
              omega⟩)
        · have hniq : ¬ (s0.createdAt < nowMs - 48 * 60 * 60 * 1000) := by
            simpa using hcr
          simp only [hd0, hcf]
          simp
          intro h1 h2
          omega
      · have hupne : s0.uploadComplete ≠ 0 := by simpa using hup
        simp only [hd0, hcf]
        simp [hupne]
  · have hne : s0.isDeleted ≠ 0 := by simpa using hd0
    simp [hne]

theorem cleanup_of_no_eligible (st1 : Store) (nowMs : Int)
    (hE : expiredSelect st1.db nowMs = [])
    (hA : abandonedSelect st1.db nowMs = []) :
    cleanupExpiredContent st1 nowMs =
      ({ expiredSessions := 0, deletedFiles := 0, r2ObjectsDeleted := 0,
         incompleteSessions := 0, errors := [] }, st1) := by
  unfold cleanupExpiredContent
  rw [hE, hA]
  rfl

/-- C8: the reaper sweep is idempotent. Running `cleanupExpiredContent`
again immediately on the state a first run produced, with the same clock,
selects no session (every session the first run cleaned is now
soft-deleted, and nothing else became eligible), reports zero expired
sessions, zero incomplete sessions, zero deleted files and zero deleted
blob objects, and leaves the state exactly as the first run left it. -/
theorem reaper_idempotent (st : Store) (nowMs : Int) :
    cleanupExpiredContent (cleanupExpiredContent st nowMs).2 nowMs =
      ({ expiredSessions := 0, deletedFiles := 0, r2ObjectsDeleted := 0,
         incompleteSessions := 0, errors := [] },
        (cleanupExpiredContent st nowMs).2) :=
  cleanup_of_no_eligible (cleanupExpiredContent st nowMs).2 nowMs
    (expiredSelect_after_sweep st nowMs)
    (abandonedSelect_after_sweep st nowMs)

/-- Closed witness for `reaper_spares_permanent`: a store holding one
sealed permanent session with one file row and one blob, swept at time 99;
all three survive. -/
theorem reaper_spares_permanent_witness :
    (⟨"55555555-5555-4555-8555-555555555555", some "PERMCO", 1, none,
       0, 0, 0⟩ : Session) ∈
      (cleanupExpiredContent
        ⟨⟨[⟨"55555555-5555-4555-8555-555555555555", some "PERMCO", 1, none,
            0, 0, 0⟩],
          [⟨"f1", "55555555-5555-4555-8555-555555555555", "a.txt",
            "text/plain", 5, some "txt", 0, 0, 0, 0⟩]⟩,
          ⟨[⟨"55555555-5555-4555-8555-555555555555", "f1", "hello"⟩],
           []⟩⟩ 99).2.db.sessions ∧
    (⟨"f1", "55555555-5555-4555-8555-555555555555", "a.txt", "text/plain",
       5, some "txt", 0, 0, 0, 0⟩ : FileRow) ∈
      (cleanupExpiredContent
        ⟨⟨[⟨"55555555-5555-4555-8555-555555555555", some "PERMCO", 1, none,
            0, 0, 0⟩],
          [⟨"f1", "55555555-5555-4555-8555-555555555555", "a.txt",
            "text/plain", 5, some "txt", 0, 0, 0, 0⟩]⟩,
          ⟨[⟨"55555555-5555-4555-8555-555555555555", "f1", "hello"⟩],
           []⟩⟩ 99).2.db.files ∧
    (⟨"55555555-5555-4555-8555-555555555555", "f1", "hello"⟩ : R2Object) ∈
      (cleanupExpiredContent
        ⟨⟨[⟨"55555555-5555-4555-8555-555555555555", some "PERMCO", 1, none,
            0, 0, 0⟩],
          [⟨"f1", "55555555-5555-4555-8555-555555555555", "a.txt",
            "text/plain", 5, some "txt", 0, 0, 0, 0⟩]⟩,
          ⟨[⟨"55555555-5555-4555-8555-555555555555", "f1", "hello"⟩],
           []⟩⟩ 99).2.r2.objects := by
  have h := reaper_spares_permanent
    ⟨⟨[⟨"55555555-5555-4555-8555-555555555555", some "PERMCO", 1, none,
        0, 0, 0⟩],
      [⟨"f1", "55555555-5555-4555-8555-555555555555", "a.txt",
        "text/plain", 5, some "txt", 0, 0, 0, 0⟩]⟩,
      ⟨[⟨"55555555-5555-4555-8555-555555555555", "f1", "hello"⟩], []⟩⟩
    99
    ⟨"55555555-5555-4555-8555-555555555555", some "PERMCO", 1, none,
      0, 0, 0⟩
    (by decide) (by decide) rfl rfl rfl
  exact ⟨h.1,
    h.2.1 ⟨"f1", "55555555-5555-4555-8555-555555555555", "a.txt",
      "text/plain", 5, some "txt", 0, 0, 0, 0⟩ (by decide) rfl,
    h.2.2 ⟨"55555555-5555-4555-8555-555555555555", "f1", "hello"⟩
      (by decide) rfl⟩

/-- C9: a chest sealed with zero files is unretrievable. The seal
handler accepts `fileIds = []` on an open session with no non-deleted
files (the cardinality check compares 0 with 0) and assigns the generated
retrieval code, but retrieving that code afterwards answers 404
("No files found for this session") even though the session is sealed,
non-expired and non-deleted. -/
theorem sealed_empty_chest_unretrievable (st : Store) (now : Int) (s : Session)
    (gen : String) (d : Int)
    (hs : s ∈ st.db.sessions)
    (hopen : s.uploadComplete = 0)
    (hdel : s.isDeleted = 0)
    (hnof : st.db.files.filter
      (fun f => f.sessionId == s.id && f.isDeleted == 0) = [])
    (hfresh : ∀ r ∈ st.db.sessions, r.retrievalCode ≠ some gen)
    (hd : d = -1 ∨ d = 1 ∨ d = 3 ∨ d = 7 ∨ d = 15) :
    (appApiCompleteChest st now s.id gen [] d).1 =
      .ok ⟨gen, calculateExpiry now d⟩ ∧
    retrieveHandler (appApiCompleteChest st now s.id gen [] d).2 now gen =
      .error ⟨404, "No files found for this session"⟩ := by
  have hcount : (st.db.files.filter
      (fun f => f.sessionId == s.id && f.isDeleted == 0)).length =
      ([] : List String).length := by
    rw [hnof]
    rfl
  have hres : (appApiCompleteChest st now s.id gen [] d).1 =
      .ok ⟨gen, calculateExpiry now d⟩ := by
    simp [appApiCompleteChest, hnof]
  refine ⟨hres, ?_⟩
  have hfiles : (appApiCompleteChest st now s.id gen [] d).2.db.files =
      st.db.files := by
    simp [appApiCompleteChest, hnof]
  have hsess : (appApiCompleteChest st now s.id gen [] d).2.db.sessions =
      st.db.sessions.map (fun r =>
        if r.id == s.id && r.uploadComplete == 0 && r.isDeleted == 0 then
          { r with retrievalCode := some gen, uploadComplete := 1,
                   expiresAt := calculateExpiry now d, updatedAt := now }
        else r) := by
    simp [appApiCompleteChest, hnof]
  -- the predicate of the retrieval session lookup
  have hpr : ∃ u ∈ (appApiCompleteChest st now s.id gen [] d).2.db.sessions,
      (u.retrievalCode == some gen && u.uploadComplete == 1 &&
        u.isDeleted == 0) = true := by
    refine ⟨⟨s.id, some gen, 1, calculateExpiry now d, s.createdAt, now,
      s.isDeleted⟩, ?_, ?_⟩
    · rw [hsess]
      refine List.mem_map.mpr ⟨s, hs, ?_⟩
      simp [hopen, hdel]
    · simp [hdel]
  have hsome : (List.find? (fun u => u.retrievalCode == some gen &&
      u.uploadComplete == 1 && u.isDeleted == 0)
      (appApiCompleteChest st now s.id gen [] d).2.db.sessions).isSome :=
    List.find?_isSome.mpr hpr
  obtain ⟨u, hfind⟩ := Option.isSome_iff_exists.mp hsome
  have hpu := List.find?_some hfind
  have humem : u ∈ (appApiCompleteChest st now s.id gen [] d).2.db.sessions :=
    List.mem_of_find?_eq_some hfind
  -- u is the image of a row that matched the conditional update
  have hu2 : u.id = s.id ∧ u.expiresAt = calculateExpiry now d := by
    rw [hsess] at humem
    obtain ⟨r0, hr0, hup⟩ := List.mem_map.mp humem
    by_cases hcond : (r0.id == s.id && r0.uploadComplete == 0 &&
        r0.isDeleted == 0) = true
    · rw [if_pos hcond] at hup
      have hid : r0.id = s.id := by
        have := hcond
        simp only [Bool.and_eq_true, beq_iff_eq] at this
        exact this.1.1
      subst hup
      exact ⟨hid, rfl⟩
    · rw [if_neg hcond] at hup
      exfalso
      apply hfresh r0 hr0
      subst hup
      have := hpu
      simp only [Bool.and_eq_true, beq_iff_eq] at this
      exact this.1.1
  -- the freshly sealed session is not expired at the same instant
  have hexp : expiryPassed u.expiresAt now = false := by
    rw [hu2.2]
    rcases hd with h | h | h | h | h <;> subst h
    · simp [calculateExpiry, expiryPassed]
    all_goals
      simp only [calculateExpiry, expiryPassed]
      norm_num
  have hempty : (appApiCompleteChest st now s.id gen [] d).2.db.files.filter
      (fun f => f.sessionId == u.id && f.isDeleted == 0) = [] := by
    rw [hfiles, hu2.1, hnof]
  simp only [retrieveHandler, hfind, hexp, Bool.false_eq_true, if_false,
    hempty, List.mergeSort_nil, List.isEmpty_nil, if_true]

/-- Closed witness for `sealed_empty_chest_unretrievable`: one open
session with no files, sealed at time 0 with code "ZZZZ99" and seven days
of validity, then retrieved at the same instant. -/
theorem sealed_empty_chest_unretrievable_witness :
    (appApiCompleteChest
        ⟨⟨[⟨"66666666-6666-4666-8666-666666666666", none, 0, none, 0, 0, 0⟩],
          []⟩, ⟨[], []⟩⟩
        0 "66666666-6666-4666-8666-666666666666" "ZZZZ99" [] 7).1 =
      .ok ⟨"ZZZZ99", calculateExpiry 0 7⟩ ∧
    retrieveHandler
        (appApiCompleteChest
          ⟨⟨[⟨"66666666-6666-4666-8666-666666666666", none, 0, none,
              0, 0, 0⟩], []⟩, ⟨[], []⟩⟩
          0 "66666666-6666-4666-8666-666666666666" "ZZZZ99" [] 7).2
        0 "ZZZZ99" =
      .error ⟨404, "No files found for this session"⟩ :=
  sealed_empty_chest_unretrievable
    ⟨⟨[⟨"66666666-6666-4666-8666-666666666666", none, 0, none, 0, 0, 0⟩],
      []⟩, ⟨[], []⟩⟩
    0 ⟨"66666666-6666-4666-8666-666666666666", none, 0, none, 0, 0, 0⟩
    "ZZZZ99" 7
    (by decide) rfl rfl rfl (by decide) (by decide)
